import Mathlib

/-!
Verification of the ScrollyTeller scroll-narrative orchestrator.

The development shallowly embeds the orchestrator found in
`src/ScrollyTeller/ScrollyTeller.js` together with the demo section
configuration (the `wealthAndHealthOfNations` module):

* `render_phases` / `applyPhase` / `stateBefore` model the phase sequence of
  `ScrollyTeller.render()`.
* `handleEvent` models the three scrollama handlers installed by
  `_buildScrollamaContainers` (`onStepEnter`, `onStepExit`, `onStepProgress`),
  with the per-section mutable state reduced to the set of narration elements
  that currently carry the `active` CSS class, and every user-callback
  invocation reified as an element of a call list.
* `wahOnScrollFunction`, `wahOnActivateNarrationFunction` and
  `wahOnResizeFunction` model the demo section's callbacks, with each
  `graph.render` / `graph.resize` invocation reified as a record.
* `decomposeTrigger` and `validateScrollyTellerConfig` are modelled from the
  spec, since the `utils/` module they live in is not among the sources.
-/

namespace ScrollyTellerModel

/-- Scroll direction reported by the intersection-detection capability. -/
inductive Direction
  | up
  | down
deriving DecidableEq

/-- One resolved narration row.  The orchestrator's event dispatch only reads
the `trigger` property, which in JavaScript may be absent (`undefined`),
modelled as `none`. -/
structure NarrationEntry where
  trigger : Option String
deriving DecidableEq

/-- The argument object passed to `onActivateNarrationFunction` and
`onScrollFunction` by the handlers in `_buildScrollamaContainers`:
`{ index, progress, element, trigger, direction, graphId, sectionConfig }`.
DOM elements are identified by a numeric id; the `sectionConfig` reference is
the ambient section the handler was built for, so it is not repeated here. -/
structure CallbackArgs where
  index : Nat
  progress : ℚ
  element : Nat
  trigger : String
  direction : Direction
  graphId : String
deriving DecidableEq

/-- A reified invocation of one of the two scroll-driven user callbacks. -/
inductive CallbackCall
  | activateNarration (args : CallbackArgs)
  | scroll (args : CallbackArgs)
deriving DecidableEq

/-- The three event kinds delivered by the scrollama capability. -/
inductive ScrollEvent
  | stepEnter (element : Nat) (index : Nat) (direction : Direction)
  | stepExit (element : Nat)
  | stepProgress (element : Nat) (index : Nat) (direction : Direction) (progress : ℚ)
deriving DecidableEq

/-- Per-section mutable DOM state seen by the handlers: the set of narration
elements currently carrying the `active` class, as a duplicate-free list.
`select(element).classed('active', true)` is `List.insert` (idempotent when
the class is already present) and `classed('active', false)` removes the
element from the set. -/
structure SectionState where
  active : List Nat
deriving DecidableEq

/-- `const { trigger = '' } = narration[index]`: the trigger of the narration
entry at `index`, defaulting to the empty string when the entry has no
`trigger` property. -/
def triggerAt (narration : List NarrationEntry) (i : Nat)
    (h : i < narration.length) : String :=
  (narration.get ⟨i, h⟩).trigger.getD ""

/-- The scrollama handlers installed by `_buildScrollamaContainers` for one
section, as a step function.  `none` models the `TypeError` thrown in
JavaScript when `narration[index]` is `undefined` (index out of range), in
which case no DOM mutation happens because the destructuring of
`narration[index]` precedes the `classed('active', ...)` call.

* `onStepEnter`: reads `narration[index].trigger` (default `''`), adds the
  `active` class to `element`, and invokes `onActivateNarrationFunction` with
  `progress = 0`.
* `onStepExit`: removes the `active` class from `element`; no callback.
* `onStepProgress`: reads the trigger the same way and invokes
  `onScrollFunction` with the reported `progress` unchanged. -/
def handleEvent (narration : List NarrationEntry) (graphId : String)
    (st : SectionState) : ScrollEvent → Option (SectionState × List CallbackCall)
  | .stepEnter element index direction =>
      if h : index < narration.length then
        some ({ active := st.active.insert element },
          [CallbackCall.activateNarration
            { index := index, progress := 0, element := element,
              trigger := triggerAt narration index h,
              direction := direction, graphId := graphId }])
      else none
  | .stepExit element =>
      some ({ active := st.active.filter (fun x => x != element) }, [])
  | .stepProgress element index direction progress =>
      if h : index < narration.length then
        some (st,
          [CallbackCall.scroll
            { index := index, progress := progress, element := element,
              trigger := triggerAt narration index h,
              direction := direction, graphId := graphId }])
      else none

/-- Run a sequence of scroll events through the handlers, collecting every
user-callback invocation in order. -/
def runEvents (narration : List NarrationEntry) (graphId : String)
    (st : SectionState) : List ScrollEvent → Option (SectionState × List CallbackCall)
  | [] => some (st, [])
  | ev :: rest => do
      let (st1, calls) ← handleEvent narration graphId st ev
      let (st2, calls') ← runEvents narration graphId st1 rest
      pure (st2, calls ++ calls')

/-- The five sequential phases of `ScrollyTeller.render()`:
`await fetchNarration(...)`, `await fetchDataAndProcessResults(...)`,
`this._buildSections()`, `this._buildScrollamaContainers()`,
`this._buildGraphs()`. -/
inductive RenderPhase
  | fetchNarration
  | fetchDataAndProcessResults
  | buildSections
  | buildScrollamaContainers
  | buildGraphs
deriving DecidableEq, BEq

/-- The phase sequence executed by `render()`, in source order. -/
def render_phases : List RenderPhase :=
  [RenderPhase.fetchNarration, RenderPhase.fetchDataAndProcessResults,
   RenderPhase.buildSections, RenderPhase.buildScrollamaContainers,
   RenderPhase.buildGraphs]

/-- Per-section progress flags set by the phases of `render()`. -/
structure SectionBuildState where
  narrationResolved : Bool
  dataResolved : Bool
  sectionBuilt : Bool
  scrollerAttached : Bool
  graphBuilt : Bool
deriving DecidableEq

/-- The build state before `render()` starts: nothing resolved or built. -/
def SectionBuildState.init : SectionBuildState :=
  ⟨false, false, false, false, false⟩

/-- Effect of one `render()` phase on a section's build state:
`fetchNarration` resolves narration, `fetchDataAndProcessResults` resolves and
reshapes data, `_buildSections` creates the DOM scaffolding,
`_buildScrollamaContainers` creates and sets up the scrollama scroll observer,
`_buildGraphs` calls `buildGraphFunction` and stores the graph handle. -/
def applyPhase (s : SectionBuildState) : RenderPhase → SectionBuildState
  | .fetchNarration => { s with narrationResolved := true }
  | .fetchDataAndProcessResults => { s with dataResolved := true }
  | .buildSections => { s with sectionBuilt := true }
  | .buildScrollamaContainers => { s with scrollerAttached := true }
  | .buildGraphs => { s with graphBuilt := true }

/-- The build state in force when a given phase of `render()` begins:
the initial state after applying every phase listed before it. -/
def stateBefore (ph : RenderPhase) : SectionBuildState :=
  (render_phases.takeWhile (fun p => p ≠ ph)).foldl applyPhase SectionBuildState.init

/-- A reified `graph.render({year, duration})` call made by the demo
callbacks; `year` is `none` when the narration state carried no year. -/
structure RenderCall where
  year : Option ℚ
  duration : Nat
deriving DecidableEq

/-- The demo section's `onScrollFunction` (`wealthAndHealthOfNations`): when
the decomposed trigger state carries a (truthy) `yearProgress`, call
`graph.render` with `year = Math.floor(yearProgressScale(yearProgress))` and
`duration: 100`; otherwise call nothing. -/
def wahOnScrollFunction (yearProgress : Option ℚ)
    (yearProgressScale : ℚ → ℚ) : Option RenderCall :=
  match yearProgress with
  | some p => some { year := some ((⌊yearProgressScale p⌋ : ℤ) : ℚ), duration := 100 }
  | none => none

/-- The observable effects of the demo section's
`onActivateNarrationFunction`: the code-snippet pane content, the svg
opacity, and the `graph.render` call. -/
structure ActivateEffects where
  codeShown : Bool
  svgOpacity : ℚ
  renderCall : RenderCall
deriving DecidableEq

/-- The demo section's `onActivateNarrationFunction`: show a code snippet and
hide the svg (`opacity` 0) when the state carries a `snippet`, then call
`graph.render` with the state's `year` and `duration: 1000`. -/
def wahOnActivateNarrationFunction (year : Option ℚ)
    (snippet : Option String) : ActivateEffects :=
  { codeShown := snippet.isSome
    svgOpacity := if snippet.isSome then 0 else 1
    renderCall := { year := year, duration := 1000 } }

/-- The graph container element, reduced to its offset dimensions. -/
structure GraphElement where
  offsetWidth : ℚ
  offsetHeight : ℚ
deriving DecidableEq

/-- A reified `graph.resize({width, height})` call. -/
structure ResizeCall where
  width : ℚ
  height : ℚ
deriving DecidableEq

/-- The demo section's `onResizeFunction`: call `graph.resize` with
`graphElement.offsetWidth * 0.9` and `graphElement.offsetHeight * 0.9`. -/
def wahOnResizeFunction (graphElement : GraphElement) : ResizeCall :=
  { width := graphElement.offsetWidth * (9 / 10)
    height := graphElement.offsetHeight * (9 / 10) }

/-- Assign `value` to `key` in an association list, overwriting any earlier
binding for the same key (last write wins). -/
def assignPair (m : List (String × String)) (k v : String) :
    List (String × String) :=
  m.filter (fun p => p.1 ≠ k) ++ [(k, v)]

/-- Split a character list on a delimiter character; adjacent delimiters
produce empty segments, like `String.splitOn` with a one-character
delimiter. -/
def splitOnChar (c : Char) (l : List Char) : List (List Char) :=
  l.foldr
    (fun ch acc =>
      match acc with
      | [] => [[ch]]
      | cur :: rest => if ch == c then [] :: cur :: rest else (ch :: cur) :: rest)
    [[]]

/-- Remove leading and trailing spaces from a character list. -/
def trimChars (l : List Char) : List Char :=
  ((l.dropWhile (fun ch => ch == ' ')).reverse.dropWhile
    (fun ch => ch == ' ')).reverse

/-- Modelled from the spec: trigger decomposition (`convertTriggerToObject`)
is implemented in `utils/index`, which is not among the provided sources.
Per spec section 4.2, the trigger string is split on a delimiter into
`key:value` pairs; each pair is trimmed and assigned into the mapping;
duplicate keys overwrite earlier ones (last write wins); tokens without the
`:` delimiter are dropped silently. -/
def decomposeTrigger (s : String) : List (String × String) :=
  (splitOnChar ' ' s.toList).foldl
    (fun m tok =>
      match splitOnChar ':' tok with
      | k :: v :: _ =>
          assignPair m (String.mk (trimChars k)) (String.mk (trimChars v))
      | _ => m)
    []

/-- A user-supplied section configuration as received by the `ScrollyTeller`
constructor, before validation: required fields may be absent (`none`), and
the two flags defaulted by `_assignConfigVariablesToSectionConfigs` may be
unassigned. -/
structure RawSectionConfig where
  sectionIdentifier : Option String
  narration : Option String
  showSpacers : Option Bool
  useDefaultGraphCSS : Option Bool
deriving DecidableEq

/-- A user-supplied top-level configuration as received by the constructor. -/
structure RawConfig where
  appContainerId : Option String
  sectionList : List RawSectionConfig
deriving DecidableEq

/-- The error taxonomy for configuration validation. -/
inductive ConfigValidationError
  | missingRequiredField
  | duplicateSectionIdentifier
deriving DecidableEq

/-- Whether a list of section identifiers contains a duplicate. -/
def hasDuplicate : List String → Bool
  | [] => false
  | x :: xs => xs.contains x || hasDuplicate xs

/-- Modelled from the spec: `validateScrollyTellerConfig` is imported from
`utils/index`, which is not among the provided sources.  Per spec section 7,
a `ConfigValidationError` is raised for missing required fields
(`appContainerId`, and each section's `sectionIdentifier` and narration
source) or duplicate section identifiers. -/
def validateScrollyTellerConfig (c : RawConfig) :
    Except ConfigValidationError Unit :=
  if c.appContainerId.isNone then
    .error .missingRequiredField
  else if c.sectionList.any
      (fun s => s.sectionIdentifier.isNone || s.narration.isNone) then
    .error .missingRequiredField
  else if hasDuplicate
      (c.sectionList.filterMap RawSectionConfig.sectionIdentifier) then
    .error .duplicateSectionIdentifier
  else
    .ok ()

/-- A section configuration after the constructor has run
`_assignConfigVariablesToSectionConfigs`: the two flags are defaulted to
`true` when unassigned, and `appContainerId` is copied onto the section. -/
structure AssignedSectionConfig where
  sectionIdentifier : String
  narration : String
  showSpacers : Bool
  useDefaultGraphCSS : Bool
  appContainerId : String
deriving DecidableEq

/-- The state of a successfully constructed `ScrollyTeller` instance, before
`render()` is called: asynchronous narration/data resolution has not started
and no derived per-section state (graph, scroller) exists yet. -/
structure ScrollyTellerState where
  appContainerId : String
  sectionList : List AssignedSectionConfig
deriving DecidableEq

/-- `_assignConfigVariablesToSectionConfigs` for one section:
`showSpacers` and `useDefaultGraphCSS` default to `true` when `undefined`,
and the app container id is assigned onto the section config. -/
def assignConfigVariables (appId : String) (s : RawSectionConfig) :
    AssignedSectionConfig :=
  { sectionIdentifier := s.sectionIdentifier.getD ""
    narration := s.narration.getD ""
    showSpacers := s.showSpacers.getD true
    useDefaultGraphCSS := s.useDefaultGraphCSS.getD true
    appContainerId := appId }

/-- The `ScrollyTeller` constructor: `validateScrollyTellerConfig(config)` is
its first statement, so an invalid configuration produces the validation
error before any field of the instance is assigned and before any
asynchronous work (which only starts in `render()`, callable only on a
constructed instance). -/
def construct (c : RawConfig) : Except ConfigValidationError ScrollyTellerState := do
  validateScrollyTellerConfig c
  let appId := c.appContainerId.getD ""
  pure { appContainerId := appId
         sectionList := c.sectionList.map (assignConfigVariables appId) }

/-! ## Theorems -/

/-- C1 counterexample: in `render()` as written, `_buildGraphs()` does not
precede `_buildScrollamaContainers()` — the scroll observer is attached while
`graphBuilt` is still `false`. -/
theorem render_graphs_not_before_scroller :
    ¬ (render_phases.indexOf RenderPhase.buildGraphs
        < render_phases.indexOf RenderPhase.buildScrollamaContainers) ∧
    (stateBefore RenderPhase.buildScrollamaContainers).graphBuilt = false := by
  decide

/-- C1 (amended): `render()` resolves narration, then resolves data, then
builds the DOM scaffolding per section, then attaches the ScrollObserver per
section, and only then builds the graph per section — ScrollObserver
attachment precedes graph construction. -/
theorem render_phase_order :
    stateBefore RenderPhase.fetchNarration = SectionBuildState.init ∧
    stateBefore RenderPhase.fetchDataAndProcessResults
      = { narrationResolved := true, dataResolved := false, sectionBuilt := false,
          scrollerAttached := false, graphBuilt := false } ∧
    stateBefore RenderPhase.buildSections
      = { narrationResolved := true, dataResolved := true, sectionBuilt := false,
          scrollerAttached := false, graphBuilt := false } ∧
    stateBefore RenderPhase.buildScrollamaContainers
      = { narrationResolved := true, dataResolved := true, sectionBuilt := true,
          scrollerAttached := false, graphBuilt := false } ∧
    stateBefore RenderPhase.buildGraphs
      = { narrationResolved := true, dataResolved := true, sectionBuilt := true,
          scrollerAttached := true, graphBuilt := false } ∧
    render_phases.indexOf RenderPhase.buildScrollamaContainers
      < render_phases.indexOf RenderPhase.buildGraphs := by
  decide

/-- C2 counterexample: two consecutive `StepEnter` events with no intervening
`StepExit` leave two narration elements of the same section carrying the
active flag — the `StepEnter` handler never deactivates the previously active
element. -/
theorem stepEnter_not_exclusive :
    (runEvents [⟨some "a"⟩, ⟨some "b"⟩] "graph_s" ⟨[]⟩
        [ScrollEvent.stepEnter 0 0 Direction.down,
         ScrollEvent.stepEnter 1 1 Direction.down]).map (fun r => r.1.active)
      = some [1, 0] ∧
    (0 : ℕ) ∈ [1, 0] ∧ (1 : ℕ) ∈ [1, 0] ∧ ¬ (([1, 0] : List ℕ).length ≤ 1) := by
  decide

/-- C2 (amended): the `StepEnter` handler only adds the active flag, so
at most one element of a section is active provided every `StepEnter` is
handled while no element is active (i.e. the detection capability emits
`StepExit` for the active element before the next `StepEnter`); `StepExit`
and `StepProgress` always preserve the at-most-one invariant. -/
theorem active_card_le_one_of_exit_before_enter
    (narration : List NarrationEntry) (graphId : String)
    (st st' : SectionState) (ev : ScrollEvent) (calls : List CallbackCall)
    (hrun : handleEvent narration graphId st ev = some (st', calls))
    (hcard : st.active.length ≤ 1)
    (henter : ∀ e i d, ev = ScrollEvent.stepEnter e i d → st.active = []) :
    st'.active.length ≤ 1 := by
  cases ev with
  | stepEnter e i d =>
      have h0 : st.active = [] := henter e i d rfl
      simp only [handleEvent] at hrun
      split at hrun
      · simp only [Option.some.injEq, Prod.mk.injEq] at hrun
        rw [← hrun.1, h0]
        simp [List.insert]
      · exact Option.noConfusion hrun
  | stepExit e =>
      simp only [handleEvent, Option.some.injEq, Prod.mk.injEq] at hrun
      rw [← hrun.1]
      exact le_trans (List.length_filter_le _ _) hcard
  | stepProgress e i d p =>
      simp only [handleEvent] at hrun
      split at hrun
      · simp only [Option.some.injEq, Prod.mk.injEq] at hrun
        rw [← hrun.1]
        exact hcard
      · exact Option.noConfusion hrun

/-- C2 witness: a concrete `StepEnter` handled from an empty active set
leaves at most one element active. -/
theorem active_card_le_one_witness :
    (⟨[0]⟩ : SectionState).active.length ≤ 1 :=
  active_card_le_one_of_exit_before_enter [⟨some "a"⟩] "graph_s" ⟨[]⟩ ⟨[0]⟩
    (ScrollEvent.stepEnter 0 0 Direction.down)
    [CallbackCall.activateNarration
      { index := 0, progress := 0, element := 0, trigger := "a",
        direction := Direction.down, graphId := "graph_s" }]
    rfl (by decide) (fun _ _ _ _ => rfl)

/-- C3: handling `StepEnter(index, direction)` marks the entered element
active and invokes `onActivateNarrationFunction` exactly once, with
`index`, `progress = 0`, the entered element, the trigger of narration entry
`index`, the direction, and the section's `graphId`. -/
theorem stepEnter_dispatch (narration : List NarrationEntry) (graphId : String)
    (st : SectionState) (e i : Nat) (d : Direction) (h : i < narration.length) :
    handleEvent narration graphId st (ScrollEvent.stepEnter e i d)
      = some ({ active := st.active.insert e },
        [CallbackCall.activateNarration
          { index := i, progress := 0, element := e,
            trigger := triggerAt narration i h,
            direction := d, graphId := graphId }]) ∧
    e ∈ st.active.insert e := by
  constructor
  · simp only [handleEvent]
    rw [dif_pos h]
  · exact List.mem_insert_self e st.active

/-- C3 witness: a concrete `StepEnter` dispatch. -/
theorem stepEnter_dispatch_witness :
    handleEvent [(⟨some "year:1962"⟩ : NarrationEntry)] "graph_s1" ⟨[]⟩
        (ScrollEvent.stepEnter 0 0 Direction.down)
      = some (⟨[0]⟩,
        [CallbackCall.activateNarration
          { index := 0, progress := 0, element := 0, trigger := "year:1962",
            direction := Direction.down, graphId := "graph_s1" }]) := by
  exact (stepEnter_dispatch [⟨some "year:1962"⟩] "graph_s1" ⟨[]⟩ 0 0
    Direction.down (by decide)).1

/-- C4: handling `StepProgress(index, direction, progress)` leaves the active
flags untouched and invokes `onScrollFunction` exactly once with `index`, the
reported `progress` passed through unmodified (no clamping to `[0,1]`), the
element, the trigger of narration entry `index`, the direction, and the
section's `graphId`. -/
theorem stepProgress_dispatch (narration : List NarrationEntry) (graphId : String)
    (st : SectionState) (e i : Nat) (d : Direction) (p : ℚ)
    (h : i < narration.length) :
    handleEvent narration graphId st (ScrollEvent.stepProgress e i d p)
      = some (st,
        [CallbackCall.scroll
          { index := i, progress := p, element := e,
            trigger := triggerAt narration i h,
            direction := d, graphId := graphId }]) := by
  simp only [handleEvent]
  rw [dif_pos h]

/-- C4 witness: a concrete `StepProgress` dispatch, with a progress value
outside `[0,1]` passed through unmodified. -/
theorem stepProgress_dispatch_witness :
    handleEvent [(⟨some "year:1962"⟩ : NarrationEntry)] "graph_s1" ⟨[]⟩
        (ScrollEvent.stepProgress 0 0 Direction.up (3 / 2))
      = some (⟨[]⟩,
        [CallbackCall.scroll
          { index := 0, progress := 3 / 2, element := 0, trigger := "year:1962",
            direction := Direction.up, graphId := "graph_s1" }]) := by
  exact stepProgress_dispatch [⟨some "year:1962"⟩] "graph_s1" ⟨[]⟩ 0 0
    Direction.up (3 / 2) (by decide)

/-- C5: every `graph.render` call made by the demo section's
`onScrollFunction` carries `duration = 100`, and every `graph.render` call
made by its `onActivateNarrationFunction` carries `duration = 1000`. -/
theorem graph_render_durations :
    (∀ (yearProgress : Option ℚ) (yearProgressScale : ℚ → ℚ) (c : RenderCall),
        wahOnScrollFunction yearProgress yearProgressScale = some c →
        c.duration = 100) ∧
    (∀ (year : Option ℚ) (snippet : Option String),
        (wahOnActivateNarrationFunction year snippet).renderCall.duration = 1000) := by
  constructor
  · intro yp scale c hc
    cases yp with
    | none => simp [wahOnScrollFunction] at hc
    | some p =>
        simp only [wahOnScrollFunction, Option.some.injEq] at hc
        rw [← hc]
  · intro y s
    rfl

/-- C5 witness: a concrete scroll-progress render call has duration 100. -/
theorem graph_render_durations_witness :
    ({ year := some 0, duration := 100 } : RenderCall).duration = 100 :=
  graph_render_durations.1 (some 0) (fun _ => 0)
    { year := some 0, duration := 100 } (by decide)

/-- Looking up a key in an association list whose other entries all have a
different key finds the appended binding. -/
theorem lookup_append_of_keys_ne {k v : String} :
    ∀ (l : List (String × String)), (∀ p ∈ l, p.1 ≠ k) →
      (l ++ [(k, v)]).lookup k = some v := by
  intro l
  induction l with
  | nil =>
      intro _
      simp [List.lookup]
  | cons p t ih =>
      intro hne
      obtain ⟨a, b⟩ := p
      have hp : a ≠ k := hne (a, b) (List.mem_cons_self (a, b) t)
      have hba : (k == a) = false := beq_eq_false_iff_ne.mpr (Ne.symm hp)
      simp only [List.cons_append, List.lookup, hba]
      exact ih (fun q hq => hne q (List.mem_cons_of_mem (a, b) hq))

/-- Assigning a binding always wins the subsequent lookup of its key. -/
theorem assignPair_lookup (m : List (String × String)) (k v : String) :
    (assignPair m k v).lookup k = some v := by
  apply lookup_append_of_keys_ne
  intro p hp
  have h := (List.mem_filter.mp hp).2
  exact of_decide_eq_true h

/-- C6: trigger decomposition splits the trigger string into `key:value`
pairs, trims them, drops tokens without the delimiter, and lets duplicate
keys overwrite earlier ones; in particular `"year:1962 snippet:intro"`
decomposes to `{year: "1962", snippet: "intro"}`, `"malformed"` decomposes to
the empty mapping, and any assigned binding wins the lookup of its key. -/
theorem decomposeTrigger_spec :
    decomposeTrigger "year:1962 snippet:intro"
      = [("year", "1962"), ("snippet", "intro")] ∧
    decomposeTrigger "malformed" = [] ∧
    decomposeTrigger "k:1 k:2" = [("k", "2")] ∧
    (∀ (m : List (String × String)) (k v : String),
        (assignPair m k v).lookup k = some v) := by
  exact ⟨by decide, by decide, by decide, assignPair_lookup⟩

/-- C7: an invalid configuration makes the `ScrollyTeller` constructor
surface the validation error before anything else: `construct` returns the
error produced by `validateScrollyTellerConfig` (its first statement), no
instance state is produced, and the asynchronous narration/data resolution —
which only `render()` on a constructed instance starts — never begins. -/
theorem construct_error_of_invalid (c : RawConfig) (e : ConfigValidationError)
    (h : validateScrollyTellerConfig c = Except.error e) :
    construct c = Except.error e := by
  unfold construct
  rw [h]
  rfl

/-- C7 witness: a configuration with a duplicate `sectionIdentifier` fails
construction with `duplicateSectionIdentifier`. -/
theorem construct_error_witness :
    construct
      { appContainerId := some "app",
        sectionList :=
          [⟨some "intro", some "narr.csv", none, none⟩,
           ⟨some "intro", some "narr2.csv", none, none⟩] }
      = Except.error ConfigValidationError.duplicateSectionIdentifier :=
  construct_error_of_invalid _ _ rfl

/-- C8: handling `StepExit(element)` removes the active flag from the exited
element, invokes no user callback (the call list is empty), and leaves every
other element's active flag unchanged, whatever the prior state. -/
theorem stepExit_effects (narration : List NarrationEntry) (graphId : String)
    (st : SectionState) (e : Nat) :
    handleEvent narration graphId st (ScrollEvent.stepExit e)
      = some ({ active := st.active.filter (fun x => x != e) }, []) ∧
    e ∉ st.active.filter (fun x => x != e) ∧
    (∀ x, x ≠ e → (x ∈ st.active.filter (fun x => x != e) ↔ x ∈ st.active)) := by
  refine ⟨rfl, ?_, ?_⟩
  · simp [List.mem_filter]
  · intro x hx
    simp [List.mem_filter, hx]

/-- C8 witness: exiting element 0 leaves element 1's active flag unchanged. -/
theorem stepExit_effects_witness :
    (1 ∈ ([0, 1] : List ℕ).filter (fun x => x != 0) ↔ 1 ∈ ([0, 1] : List ℕ)) :=
  (stepExit_effects [] "graph_s" ⟨[0, 1]⟩ 0).2.2 1 (by decide)

/-- C9: the demo section's resize handler calls `graph.resize` with width and
height equal to 90% of the graph container element's offset dimensions. -/
theorem onResize_ninety_percent (graphElement : GraphElement) :
    (wahOnResizeFunction graphElement).width * 10
      = graphElement.offsetWidth * 9 ∧
    (wahOnResizeFunction graphElement).height * 10
      = graphElement.offsetHeight * 9 := by
  constructor
  · simp only [wahOnResizeFunction]
    ring
  · simp only [wahOnResizeFunction]
    ring

/-- C10: when the narration entry at the event's index exists but has no
`trigger` property, both the `StepEnter` and `StepProgress` dispatch paths
succeed and invoke the user callback with the empty string as trigger. -/
theorem missing_trigger_defaults_empty (narration : List NarrationEntry)
    (graphId : String) (st : SectionState) (e i : Nat) (d : Direction) (p : ℚ)
    (h : i < narration.length)
    (ht : (narration.get ⟨i, h⟩).trigger = none) :
    handleEvent narration graphId st (ScrollEvent.stepEnter e i d)
      = some ({ active := st.active.insert e },
        [CallbackCall.activateNarration
          { index := i, progress := 0, element := e, trigger := "",
            direction := d, graphId := graphId }]) ∧
    handleEvent narration graphId st (ScrollEvent.stepProgress e i d p)
      = some (st,
        [CallbackCall.scroll
          { index := i, progress := p, element := e, trigger := "",
            direction := d, graphId := graphId }]) := by
  have htr : triggerAt narration i h = "" := by
    unfold triggerAt
    rw [ht]
    rfl
  constructor
  · simp only [handleEvent]
    rw [dif_pos h, htr]
  · simp only [handleEvent]
    rw [dif_pos h, htr]

/-- C10 witness: a concrete narration entry without a trigger dispatches with
the empty-string trigger. -/
theorem missing_trigger_witness :
    handleEvent [(⟨none⟩ : NarrationEntry)] "graph_s" ⟨[]⟩
        (ScrollEvent.stepEnter 0 0 Direction.up)
      = some (⟨[0]⟩,
        [CallbackCall.activateNarration
          { index := 0, progress := 0, element := 0, trigger := "",
            direction := Direction.up, graphId := "graph_s" }]) :=
  (missing_trigger_defaults_empty [⟨none⟩] "graph_s" ⟨[]⟩ 0 0 Direction.up 0
    (by decide) rfl).1

end ScrollyTellerModel
